import Mathlib

/-
  Verification development for the foundry-vtt-mcp control plane.

  The definitions below are a shallow embedding of the TypeScript sources:
  - `Wrapper`: the MCP wrapper's `BackendClient` (Connection Supervisor),
    from packages/mcp-server (the wrapper entry point bundled with
    comfyui-paths.ts in this snapshot).
  - `Bridge`: `SocketBridge` from packages/foundry-module/src/socket-bridge.ts
    (Dual-Transport Bridge).
  - `Comfy`: `ComfyUIClient` (External Service Client).
  - `Orchestrator`: the job-orchestrator cancel handler, modelled from the
    spec because the backend handler code is not part of this snapshot.
-/

namespace FoundryMCP

namespace Wrapper

/-- A parsed backend response frame, mirroring
`type BackendRes = { id: string; result?: any; error?: { message: string } }`.
Payloads are abstracted to `String`. -/
structure BackendRes where
  id : String
  result : Option String
  error : Option String
deriving DecidableEq, Repr

/-- Observable settlement of one pending request promise. -/
inductive Outcome where
  | resolved (v : Option String)
  | rejected (msg : String)
deriving DecidableEq, Repr

/-- How `onData` settles a matched request:
`if (msg.error) p.reject(new Error(msg.error.message)); else p.resolve(msg.result)`. -/
def outcomeOf (m : BackendRes) : Outcome :=
  match m.error with
  | some e => .rejected e
  | none => .resolved m.result

/-- The `pending` table: `Map<string, {resolve, reject}>`, with each promise
identified by an opaque slot token. -/
abbrev Pending := List (String × Nat)

/-- Lookup by key, `Map.get` semantics. -/
def tblGet : Pending → String → Option Nat
  | [], _ => none
  | (k, v) :: rest, key => if k = key then some v else tblGet rest key

/-- Removal by key, `Map.delete` semantics. -/
def tblDel (t : Pending) (key : String) : Pending :=
  t.filter (fun kv => kv.1 != key)

/-- The keys of the pending table. -/
def tblKeys (t : Pending) : List String :=
  t.map Prod.fst

/-- Insertion, `Map.set` semantics (used by `send` with a fresh id). -/
def tblSet (t : Pending) (key : String) (slot : Nat) : Pending :=
  (key, slot) :: tblDel t key

/-- One step of `BackendClient.onData` at the frame level: look the frame's id
up in `pending`; an unmatched id is logged and dropped (`continue`), a matched
id is deleted from the table and its promise settled via `outcomeOf`. -/
def onFrame (pending : Pending) (m : BackendRes) : Pending × Option (Nat × Outcome) :=
  match tblGet pending m.id with
  | none => (pending, none)
  | some slot => (tblDel pending m.id, some (slot, outcomeOf m))

/-- Process a sequence of response frames in arrival order, collecting the
settlements they cause. -/
def runFrames (pending : Pending) : List BackendRes → Pending × List (Nat × Outcome)
  | [] => (pending, [])
  | m :: ms =>
    let step := onFrame pending m
    let rest := runFrames step.1 ms
    (rest.1, match step.2 with
      | none => rest.2
      | some o => o :: rest.2)

/-- The socket reference as seen by `ensure()`. -/
structure Sock where
  destroyed : Bool
deriving DecidableEq, Repr

/-- The `BackendClient` connection-relevant state: the socket reference
(`null` = `none`) and the pending table. -/
structure ClientState where
  socket : Option Sock
  pending : Pending
deriving Repr

/-- `BackendClient.rejectAll`: reject every pending promise with the
connection-lost error, clear the table, clear the socket reference. -/
def rejectAll (st : ClientState) (err : String) : ClientState × List (Nat × Outcome) :=
  ({ socket := none, pending := [] },
   st.pending.map (fun kv => (kv.2, Outcome.rejected err)))

/-- The guard in `ensure()`: reconnect unless a live socket reference exists
(`if (this.socket && !this.socket.destroyed) return`). -/
def ensureReconnects (st : ClientState) : Bool :=
  match st.socket with
  | none => true
  | some s => s.destroyed

/-- Retry budget of `connectWithRetry` (`const maxAttempts = 40`). -/
def maxAttempts : Nat := 40

/-- Backoff delay before retry attempt `n` (milliseconds, as a rational):
`Math.min(250 * Math.pow(1.4, attempt), 2000)`. -/
def delayMs (attempt : Nat) : ℚ :=
  min (250 * (7 / 5 : ℚ) ^ attempt) 2000

/-- The terminal error message thrown when the retry budget is exhausted. -/
def terminalMsg (lastMsg : String) : String :=
  "Unable to connect to Foundry MCP backend after " ++ toString maxAttempts
    ++ " attempts: " ++ lastMsg

/-- The retry loop of `connectWithRetry`, with connection attempts abstracted
as an oracle `res` indexed by attempt number. Returns the list of backoff
delays waited and the final result; `lastMsg` carries the message of the last
failure seen so far. -/
def retryAux (res : Nat → Except String Unit) :
    Nat → Nat → String → List ℚ × Except String Unit
  | _, 0, lastMsg => ([], .error (terminalMsg lastMsg))
  | attempt, r + 1, _lastMsg =>
    match res attempt with
    | .ok _ => ([delayMs attempt], .ok ())
    | .error e =>
      let rest := retryAux res (attempt + 1) r e
      (delayMs attempt :: rest.1, rest.2)

/-- `BackendClient.connectWithRetry`: a direct connection attempt first; on
failure the backend is spawned and the bounded backoff loop runs. -/
def connectWithRetry (initial : Except String Unit)
    (res : Nat → Except String Unit) : List ℚ × Except String Unit :=
  match initial with
  | .ok _ => ([], .ok ())
  | .error e => retryAux res 0 maxAttempts e

/-- What the supervisor does when the spawned backend's exit is observed. -/
inductive SupervisorAction where
  | exitSelf
  | keepRunning
deriving DecidableEq, Repr

/-- The `child.on('exit', (code) => ...)` handler installed by `startBackend`:
clean exit (code 0) logs and exits the wrapper process; a non-zero code logs
and keeps running; a `null` code (signal exit) falls through both branches.
Returns the action taken and whether a log line was written. -/
def onBackendExit (code : Option Int) : SupervisorAction × Bool :=
  if code = some 0 then (.exitSelf, true)
  else if code ≠ none then (.keepRunning, true)
  else (.keepRunning, false)

end Wrapper

namespace Bridge

/-- `CONNECTION_STATES` of the foundry module. -/
inductive ConnState where
  | disconnected
  | connecting
  | connected
  | reconnecting
deriving DecidableEq, Repr

/-- The `SocketBridge` fields relevant to reconnection:
`connectionState`, `reconnectAttempts`, `maxReconnectAttempts`, and whether a
`reconnectTimer` is pending. -/
structure BridgeState where
  connectionState : ConnState
  reconnectAttempts : Nat
  maxReconnectAttempts : Nat
  timerPending : Bool
deriving DecidableEq, Repr

/-- The backoff delay used by `scheduleReconnect`:
`Math.min(1000 * Math.pow(2, this.reconnectAttempts), 30000)`. -/
def reconnectDelay (n : Nat) : Nat :=
  min (1000 * 2 ^ n) 30000

/-- `SocketBridge.scheduleReconnect`: a no-op once the attempt ceiling is
reached; otherwise replace any pending timer, increment the attempt counter,
enter `RECONNECTING`, and schedule a timer after the backoff delay (returned
as `some delay`). -/
def scheduleReconnect (st : BridgeState) : BridgeState × Option Nat :=
  if st.reconnectAttempts ≥ st.maxReconnectAttempts then
    (st, none)
  else
    ({ st with
        reconnectAttempts := st.reconnectAttempts + 1,
        timerPending := true,
        connectionState := .reconnecting },
     some (reconnectDelay st.reconnectAttempts))

/-- The `ws.onclose` handler of `connectWebSocket`: the state becomes
`DISCONNECTED`; a clean close (`event.wasClean`) returns without scheduling a
reconnect, an unclean one calls `scheduleReconnect`. -/
def onClose (st : BridgeState) (wasClean : Bool) : BridgeState :=
  let st1 := { st with connectionState := ConnState.disconnected }
  if wasClean then st1 else (scheduleReconnect st1).1

/-- `SocketBridge.disconnect`: clear any pending reconnect timer, close the
active transport with a clean close code, and end in `DISCONNECTED`. -/
def disconnect (st : BridgeState) : BridgeState :=
  { st with timerPending := false, connectionState := .disconnected }

/-- The `data` payload of an `mcp-query` envelope: a method name and an
abstract argument payload. -/
structure QueryData where
  method : String
  payload : Option String
deriving DecidableEq, Repr

/-- The structured response produced by `handleMCPQuery`'s callback:
`{ success: true, data }` or `{ success: false, error }`. -/
structure QueryResponse where
  success : Bool
  data : Option String
  error : Option String
deriving DecidableEq, Repr

/-- The registered handler table `CONFIG.queries`, keyed by method name; a
handler may return a result or throw (modelled as `Except`). -/
abbrev QueryTable := List (String × (Option String → Except String String))

/-- An incoming envelope `{ type, id?, data? }`. -/
structure InMsg where
  type : String
  id : Option String
  data : QueryData
deriving Repr

/-- An outgoing envelope posted through `sendMessage`. -/
structure OutMsg where
  type : String
  id : Option String
  response : Option QueryResponse
deriving DecidableEq, Repr

/-- `SocketBridge.handleMCPQuery`: look the method up in `CONFIG.queries`;
a missing handler throws `No handler found for query: <method>`, which the
surrounding catch turns into `{ success: false, error }`; a successful handler
yields `{ success: true, data }`. -/
def handleMCPQuery (queries : QueryTable) (d : QueryData) : QueryResponse :=
  match queries.lookup d.method with
  | none =>
    { success := false, data := none,
      error := some ("No handler found for query: " ++ d.method) }
  | some h =>
    match h d.payload with
    | .ok r => { success := true, data := some r, error := none }
    | .error e => { success := false, data := none, error := some e }

/-- `SocketBridge.handleMessage`: dispatch on `message.type`. A query is
answered with an `mcp-response` carrying the query's id; a `ping` is answered
with a `pong`; `job-completed` and `map-generation-progress` run consumer-side
handlers and post nothing back. Handler errors are caught and logged, so the
bridge state is never modified here. -/
def handleMessage (queries : QueryTable) (st : BridgeState) (msg : InMsg) :
    BridgeState × List OutMsg :=
  if msg.type = "mcp-query" then
    (st, [{ type := "mcp-response", id := msg.id,
            response := some (handleMCPQuery queries msg.data) }])
  else if msg.type = "ping" then
    (st, [{ type := "pong", id := msg.id, response := none }])
  else
    (st, [])

end Bridge

namespace Comfy

/-- The four statuses `getJobStatusWithProgress` can report. -/
inductive PollStatus where
  | queued
  | running
  | complete
  | failed
deriving DecidableEq, Repr

/-- One entry of ComfyUI's `/queue` listing: the prompt id (`item[1]`) and the
`steps` input of workflow node 5 (`item[2]['5'].inputs.steps`) when present. -/
structure QueueItem where
  promptId : String
  steps : Option Nat
deriving DecidableEq, Repr

/-- The `/queue` response body: running and pending entries. -/
structure QueueData where
  queueRunning : List QueueItem
  queuePending : List QueueItem
deriving DecidableEq, Repr

/-- The enriched result of `getJobStatusWithProgress`. -/
structure PollResult where
  status : PollStatus
  currentStep : Option Nat
  totalSteps : Option Nat
  estimatedTimeRemaining : Option Nat
deriving DecidableEq, Repr

/-- `ComfyUIClient.getJobStatusWithProgress`. HTTP results are abstracted:
`histKeys` is `Object.keys` of the `/history/{promptId}` body (or a transport
error), `queue` is the `/queue` body (or a transport error); any thrown error
is caught and reported as `failed`. `rand` models
`Math.floor(Math.random() * totalSteps)` in the placeholder step estimate
`Math.min(totalSteps, Math.floor(Math.random() * totalSteps) + 1)`;
`estimatedTimeRemaining` uses 18 seconds per remaining step. -/
def getJobStatusWithProgress (promptId : String)
    (histKeys : Except Unit (List String))
    (queue : Except Unit QueueData)
    (rand : Nat) : PollResult :=
  match histKeys with
  | .error _ => ⟨.failed, none, none, none⟩
  | .ok keys =>
    if keys.length > 0 then
      ⟨.complete, none, none, none⟩
    else
      match queue with
      | .error _ => ⟨.failed, none, none, none⟩
      | .ok qd =>
        match qd.queueRunning.find? (fun it => it.promptId == promptId) with
        | some item =>
          let totalSteps := item.steps.getD 8
          let currentStep := min totalSteps (rand + 1)
          ⟨.running, some currentStep, some totalSteps,
            some ((totalSteps - currentStep) * 18)⟩
        | none =>
          if qd.queuePending.any (fun it => it.promptId == promptId) then
            ⟨.queued, none, none, none⟩
          else
            ⟨.failed, none, none, none⟩

/-- `ComfyUIClient.getJobStatus`: the status projection of
`getJobStatusWithProgress`. -/
def getJobStatus (promptId : String)
    (histKeys : Except Unit (List String))
    (queue : Except Unit QueueData)
    (rand : Nat) : PollStatus :=
  (getJobStatusWithProgress promptId histKeys queue rand).status

end Comfy

namespace Orchestrator

/-- Job statuses of the orchestrator's job table (spec §3 `Job`). -/
inductive JobStatus where
  | queued
  | generating
  | processing
  | complete
  | failed
  | expired
  | cancelled
deriving DecidableEq, Repr

/-- A snapshot of one orchestrator job (spec §3 `Job`, fields restricted to
those cancellation touches). -/
structure Job where
  id : String
  status : JobStatus
  completedAt : Option Nat
  progressPercent : Nat
deriving DecidableEq, Repr

/-- Outcome of a cancel request: a structured ok/err result plus the job as it
is after the call. -/
structure CancelResult where
  ok : Bool
  error : Option String
  job : Job
deriving DecidableEq, Repr

/-- Modelled from the spec: the job-orchestrator cancel handler is not part of
this source snapshot (`MapGenerationTools.cancelMapJob` only forwards the
request over the bridge). Per spec §4.3, `cancelled` is reachable from
`queued|generating|processing` in one transition; the external interrupt is
fire-and-forget so the local marking ignores `interruptOk`; cancelling a job
in a terminal state returns a structured error and leaves the job unchanged. -/
def cancelJob (j : Job) (now : Nat) (interruptOk : Bool) : CancelResult :=
  match j.status with
  | .queued | .generating | .processing =>
    let _ := interruptOk
    { ok := true, error := none,
      job := { j with status := .cancelled, completedAt := some now } }
  | _ =>
    { ok := false, error := some "Job is not cancellable", job := j }

end Orchestrator

/- ## Helper lemmas on the pending table -/

namespace Wrapper

theorem tblGet_of_mem {t : Pending} {k : String} {v : Nat}
    (hnd : (tblKeys t).Nodup) (hm : (k, v) ∈ t) : tblGet t k = some v := by
  induction t with
  | nil => cases hm
  | cons kv rest ih =>
    obtain ⟨k0, v0⟩ := kv
    simp only [tblKeys, List.map_cons, List.nodup_cons] at hnd
    rcases List.mem_cons.mp hm with h | h
    · have hk : k0 = k := (congrArg Prod.fst h).symm
      have hv : v0 = v := (congrArg Prod.snd h).symm
      simp [tblGet, hk, hv]
    · have hk0 : k0 ≠ k := by
        intro he
        exact hnd.1 (he ▸ (List.mem_map_of_mem Prod.fst h))
      simp [tblGet, hk0]
      exact ih hnd.2 h

theorem tblGet_tblDel_self (t : Pending) (k : String) :
    tblGet (tblDel t k) k = none := by
  induction t with
  | nil => rfl
  | cons kv rest ih =>
    obtain ⟨k0, v0⟩ := kv
    by_cases h : k0 = k
    · simpa [tblDel, h] using ih
    · simpa [tblDel, tblGet, h] using ih

theorem mem_tblDel_of_ne {t : Pending} {k k' : String} {v : Nat}
    (hm : (k, v) ∈ t) (hne : k ≠ k') : (k, v) ∈ tblDel t k' := by
  unfold tblDel
  rw [List.mem_filter]
  exact ⟨hm, by simpa [bne_iff_ne] using hne⟩

theorem tblKeys_tblDel (t : Pending) (k : String) :
    tblKeys (tblDel t k) = (tblKeys t).filter (fun s => s != k) := by
  induction t with
  | nil => rfl
  | cons kv rest ih =>
    obtain ⟨k0, v0⟩ := kv
    by_cases h : k0 = k
    · simpa [tblDel, tblKeys, List.filter, h] using ih
    · simp only [tblDel, tblKeys, List.filter] at ih ⊢
      simp only [show (k0 != k) = true by simpa [bne_iff_ne] using h]
      simpa using ih

theorem nodup_tblDel {t : Pending} {k : String}
    (hnd : (tblKeys t).Nodup) : (tblKeys (tblDel t k)).Nodup := by
  rw [tblKeys_tblDel]
  exact hnd.filter _

theorem runFrames_mem_of_first_match {pending : Pending} {id : String}
    {slot : Nat} (l₁ : List BackendRes) (m : BackendRes) (l₂ : List BackendRes)
    (hnd : (tblKeys pending).Nodup) (hmem : (id, slot) ∈ pending)
    (hid : m.id = id) (hskip : ∀ m' ∈ l₁, m'.id ≠ id) :
    (slot, outcomeOf m) ∈ (runFrames pending (l₁ ++ m :: l₂)).2 := by
  induction l₁ generalizing pending with
  | nil =>
    have hget : tblGet pending m.id = some slot := by
      rw [hid]; exact tblGet_of_mem hnd hmem
    simp [runFrames, onFrame, hget]
  | cons m' l₁ ih =>
    have hne : m'.id ≠ id := hskip m' (List.mem_cons_self _ _)
    have hskip' : ∀ m'' ∈ l₁, m''.id ≠ id := fun m'' h => hskip m'' (List.mem_cons_of_mem _ h)
    simp only [List.cons_append, runFrames]
    cases hget : tblGet pending m'.id with
    | none =>
      simpa [onFrame, hget] using ih hnd hmem hskip'
    | some s =>
      have hmem' : (id, slot) ∈ tblDel pending m'.id :=
        mem_tblDel_of_ne hmem (fun he => hne he.symm)
      have hnd' := nodup_tblDel (k := m'.id) hnd
      have := ih hnd' hmem' hskip'
      simp only [onFrame, hget]
      exact List.mem_cons_of_mem _ this

end Wrapper

/- ## Claim theorems -/

/-- Claim C1: a response frame is matched to its pending request by its
correlation id. An unmatched frame is dropped without touching the pending
table; a matched frame settles exactly the request registered under that id
(with the frame's own result) and removes the id, so a duplicate id cannot
settle it a second time; and for any sequence of interleaved requests with
fresh (distinct) ids and any arrival order of response frames, the request
registered under `id` is settled with the outcome of the first frame carrying
`id`. -/
theorem C1_response_matched_by_id :
    (∀ (pending : Wrapper.Pending) (m : Wrapper.BackendRes),
      Wrapper.tblGet pending m.id = none →
      Wrapper.onFrame pending m = (pending, none)) ∧
    (∀ (pending : Wrapper.Pending) (m : Wrapper.BackendRes) (slot : Nat),
      Wrapper.tblGet pending m.id = some slot →
      Wrapper.onFrame pending m =
        (Wrapper.tblDel pending m.id, some (slot, Wrapper.outcomeOf m)) ∧
      Wrapper.tblGet (Wrapper.onFrame pending m).1 m.id = none) ∧
    (∀ (pending : Wrapper.Pending) (id : String) (slot : Nat)
      (l₁ : List Wrapper.BackendRes) (m : Wrapper.BackendRes)
      (l₂ : List Wrapper.BackendRes),
      (Wrapper.tblKeys pending).Nodup → (id, slot) ∈ pending →
      m.id = id → (∀ m' ∈ l₁, m'.id ≠ id) →
      (slot, Wrapper.outcomeOf m) ∈ (Wrapper.runFrames pending (l₁ ++ m :: l₂)).2) := by
  refine ⟨?_, ?_, ?_⟩
  · intro pending m h
    simp [Wrapper.onFrame, h]
  · intro pending m slot h
    constructor
    · simp [Wrapper.onFrame, h]
    · simp [Wrapper.onFrame, h, Wrapper.tblGet_tblDel_self]
  · intro pending id slot l₁ m l₂ hnd hmem hid hskip
    exact Wrapper.runFrames_mem_of_first_match l₁ m l₂ hnd hmem hid hskip

/-- Witness for C1 at concrete inputs: two interleaved requests `a` (slot 1)
and `b` (slot 2); responses arrive out of order (`b` first), yet request `a`
is settled with the result of the frame whose id is `a`; and a frame whose id
matches no pending request leaves the table untouched. -/
theorem C1_response_matched_by_id_witness :
    (3, Wrapper.outcomeOf ⟨"a", some "ra", none⟩) ∈
      (Wrapper.runFrames [("a", 3), ("b", 7)]
        ([⟨"b", some "rb", none⟩] ++ ⟨"a", some "ra", none⟩ :: [])).2 ∧
    Wrapper.onFrame [("a", 3), ("b", 7)] ⟨"zz", some "r", none⟩ =
      ([("a", 3), ("b", 7)], none) := by
  constructor
  · exact C1_response_matched_by_id.2.2 [("a", 3), ("b", 7)] "a" 3
      [⟨"b", some "rb", none⟩] ⟨"a", some "ra", none⟩ []
      (by decide) (by decide) rfl (by decide)
  · exact C1_response_matched_by_id.1 [("a", 3), ("b", 7)] ⟨"zz", some "r", none⟩ rfl

/-- Claim C2: on socket error or close, `rejectAll` rejects every pending
request with the connection-lost error exactly once each (one rejection per
table entry, in table order), empties the pending table, clears the socket
reference so that the next `send`'s `ensure()` re-runs the connect path, and a
second error or close event settles nothing further (no double-reject). -/
theorem C2_connection_loss_rejects_all :
    ∀ (st : Wrapper.ClientState) (err : String),
      (Wrapper.rejectAll st err).2 =
        st.pending.map (fun kv => (kv.2, Wrapper.Outcome.rejected err)) ∧
      (Wrapper.rejectAll st err).1.pending = [] ∧
      (Wrapper.rejectAll st err).1.socket = none ∧
      Wrapper.ensureReconnects (Wrapper.rejectAll st err).1 = true ∧
      (∀ err2, (Wrapper.rejectAll (Wrapper.rejectAll st err).1 err2).2 = []) := by
  intro st err
  refine ⟨rfl, rfl, rfl, rfl, fun err2 => rfl⟩

/- ## Helper lemmas on the retry loop -/

namespace Wrapper

theorem delayMs_le_cap (n : Nat) : delayMs n ≤ 2000 :=
  min_le_right _ _

theorem delayMs_le_succ (n : Nat) : delayMs n ≤ delayMs (n + 1) := by
  unfold delayMs
  apply min_le_min _ le_rfl
  have h0 : (0 : ℚ) ≤ 7 / 5 := by norm_num
  have h1 : (1 : ℚ) ≤ 7 / 5 := by norm_num
  have hp : (7 / 5 : ℚ) ^ n ≤ (7 / 5 : ℚ) ^ (n + 1) := by
    calc (7 / 5 : ℚ) ^ n = (7 / 5 : ℚ) ^ n * 1 := by ring
    _ ≤ (7 / 5 : ℚ) ^ n * (7 / 5) := by
        exact mul_le_mul_of_nonneg_left h1 (pow_nonneg h0 n)
    _ = (7 / 5 : ℚ) ^ (n + 1) := by ring
  linarith

theorem retryAux_succ (res : Nat → Except String Unit)
    (attempt r : Nat) (last : String) :
    retryAux res attempt (r + 1) last =
      match res attempt with
      | .ok _ => ([delayMs attempt], .ok ())
      | .error e =>
        (delayMs attempt :: (retryAux res (attempt + 1) r e).1,
         (retryAux res (attempt + 1) r e).2) := rfl

theorem retryAux_length (res : Nat → Except String Unit) :
    ∀ (r attempt : Nat) (last : String),
      (retryAux res attempt r last).1.length ≤ r := by
  intro r
  induction r with
  | zero => intro attempt last; simp [retryAux]
  | succ r ih =>
    intro attempt last
    cases h : res attempt with
    | ok v => simp [retryAux, h]
    | error e =>
      have := ih (attempt + 1) e
      simp only [retryAux, h, List.length_cons]
      omega

theorem retryAux_all_fail (res : Nat → Except String Unit)
    (msgs : Nat → String) (hall : ∀ i, res i = .error (msgs i)) :
    ∀ (r attempt : Nat) (last : String), 0 < r →
      (retryAux res attempt r last).2 =
        .error (terminalMsg (msgs (attempt + r - 1))) := by
  intro r
  induction r with
  | zero => intro attempt last h; exact absurd h (lt_irrefl 0)
  | succ r ih =>
    intro attempt last _
    cases r with
    | zero =>
      simp [retryAux, hall attempt]
    | succ r' =>
      have h0 := ih (attempt + 1) (msgs attempt) (Nat.succ_pos r')
      have hidx : attempt + 1 + (r' + 1) - 1 = attempt + (r' + 1 + 1) - 1 := by omega
      rw [retryAux_succ, hall attempt]
      dsimp only
      rw [h0, hidx]

theorem retryAux_ok (res : Nat → Except String Unit) :
    ∀ (r attempt : Nat) (last : String) (k : Nat), k < r →
      res (attempt + k) = .ok () →
      (retryAux res attempt r last).2 = .ok () := by
  intro r
  induction r with
  | zero => intro attempt last k hk _; omega
  | succ r ih =>
    intro attempt last k hk hok
    cases h : res attempt with
    | ok v => simp [retryAux, h]
    | error e =>
      cases k with
      | zero =>
        rw [Nat.add_zero] at hok
        rw [hok] at h
        exact Except.noConfusion h
      | succ k' =>
        have hsh : res (attempt + 1 + k') = .ok () := by
          rw [show attempt + 1 + k' = attempt + (k' + 1) by omega]
          exact hok
        have := ih (attempt + 1) e k' (by omega) hsh
        simp [retryAux, h, this]

end Wrapper

/-- Claim C3: after a failed direct connection (and a backend spawn), the
retry loop makes at most `maxAttempts` further attempts; before each attempt
it waits `min (250 * 1.4 ^ attempt) 2000` ms, a delay that grows from a base
of 250 ms by the fixed factor 1.4 (before capping) and never exceeds the
2000 ms cap; if every attempt fails the single terminal error's message
includes the last underlying failure's cause, and if any attempt succeeds the
call returns without error. -/
theorem C3_bounded_backoff_retry :
    (∀ n, Wrapper.delayMs n ≤ 2000) ∧
    (∀ n, Wrapper.delayMs n ≤ Wrapper.delayMs (n + 1)) ∧
    (∀ n, 250 * (7 / 5 : ℚ) ^ (n + 1) = (7 / 5 : ℚ) * (250 * (7 / 5 : ℚ) ^ n)) ∧
    Wrapper.delayMs 0 = 250 ∧
    (∀ (initial : Except String Unit) (res : Nat → Except String Unit),
      (Wrapper.connectWithRetry initial res).1.length ≤ Wrapper.maxAttempts) ∧
    (∀ res : Nat → Except String Unit,
      Wrapper.connectWithRetry (.ok ()) res = ([], .ok ())) ∧
    (∀ (res : Nat → Except String Unit) (msgs : Nat → String) (e0 : String),
      (∀ i, res i = Except.error (msgs i)) →
      (Wrapper.connectWithRetry (.error e0) res).2 =
        .error (Wrapper.terminalMsg (msgs (Wrapper.maxAttempts - 1))) ∧
      (∃ pre, Wrapper.terminalMsg (msgs (Wrapper.maxAttempts - 1)) =
        pre ++ msgs (Wrapper.maxAttempts - 1))) ∧
    (∀ (res : Nat → Except String Unit) (e0 : String) (k : Nat),
      k < Wrapper.maxAttempts → res k = Except.ok () →
      (Wrapper.connectWithRetry (.error e0) res).2 = .ok ()) := by
  refine ⟨Wrapper.delayMs_le_cap, Wrapper.delayMs_le_succ, ?_, ?_, ?_, ?_, ?_, ?_⟩
  · intro n; ring
  · norm_num [Wrapper.delayMs]
  · intro initial res
    cases initial with
    | ok v => simp [Wrapper.connectWithRetry]
    | error e => exact Wrapper.retryAux_length res Wrapper.maxAttempts 0 e
  · intro res; rfl
  · intro res msgs e0 hall
    constructor
    · have := Wrapper.retryAux_all_fail res msgs hall Wrapper.maxAttempts 0 e0
        (by norm_num [Wrapper.maxAttempts])
      simpa [Wrapper.connectWithRetry] using this
    · exact ⟨"Unable to connect to Foundry MCP backend after "
        ++ toString Wrapper.maxAttempts ++ " attempts: ", rfl⟩
  · intro res e0 k hk hok
    have := Wrapper.retryAux_ok res Wrapper.maxAttempts 0 e0 k hk
      (by simpa using hok)
    simpa [Wrapper.connectWithRetry] using this

/-- Witness for C3 at concrete inputs: when the backend never comes up the
terminal error carries the last cause; when an attempt succeeds the call
returns ok; and one concrete delay respects the cap. -/
theorem C3_bounded_backoff_retry_witness :
    (Wrapper.connectWithRetry (.error "first refused")
       (fun _ => .error "connect ECONNREFUSED")).2 =
      .error (Wrapper.terminalMsg "connect ECONNREFUSED") ∧
    (Wrapper.connectWithRetry (.error "first refused") (fun _ => .ok ())).2 =
      .ok () ∧
    Wrapper.delayMs 3 ≤ 2000 :=
  ⟨(C3_bounded_backoff_retry.2.2.2.2.2.2.1
      (fun _ => .error "connect ECONNREFUSED")
      (fun _ => "connect ECONNREFUSED") "first refused" (fun _ => rfl)).1,
   C3_bounded_backoff_retry.2.2.2.2.2.2.2
      (fun _ => .ok ()) "first refused" 0 (by norm_num [Wrapper.maxAttempts]) rfl,
   C3_bounded_backoff_retry.1 3⟩

/-- Claim C4: the bridge's reconnect backoff delay is non-decreasing in the
attempt counter and never exceeds the 30-second cap; `scheduleReconnect`
keeps the attempt counter within the configured ceiling; at the ceiling it
schedules nothing and leaves the state untouched; and below the ceiling it
schedules exactly one timer after the current backoff delay and increments the
counter by one. -/
theorem C4_reconnect_backoff_bounded :
    (∀ n, Bridge.reconnectDelay n ≤ Bridge.reconnectDelay (n + 1)) ∧
    (∀ n, Bridge.reconnectDelay n ≤ 30000) ∧
    (∀ st : Bridge.BridgeState,
      st.reconnectAttempts ≤ st.maxReconnectAttempts →
      (Bridge.scheduleReconnect st).1.reconnectAttempts ≤ st.maxReconnectAttempts) ∧
    (∀ st : Bridge.BridgeState,
      st.maxReconnectAttempts ≤ st.reconnectAttempts →
      Bridge.scheduleReconnect st = (st, none)) ∧
    (∀ st : Bridge.BridgeState,
      st.reconnectAttempts < st.maxReconnectAttempts →
      (Bridge.scheduleReconnect st).2 =
        some (Bridge.reconnectDelay st.reconnectAttempts) ∧
      (Bridge.scheduleReconnect st).1.reconnectAttempts =
        st.reconnectAttempts + 1 ∧
      (Bridge.scheduleReconnect st).1.timerPending = true) := by
  refine ⟨?_, ?_, ?_, ?_, ?_⟩
  · intro n
    unfold Bridge.reconnectDelay
    apply min_le_min _ le_rfl
    exact Nat.mul_le_mul_left 1000 (Nat.pow_le_pow_right (by norm_num) (Nat.le_succ n))
  · intro n
    exact min_le_right _ _
  · intro st h
    unfold Bridge.scheduleReconnect
    split
    · exact h
    · next h2 => simp only []; omega
  · intro st h
    simp [Bridge.scheduleReconnect, h]
  · intro st h
    have h2 : ¬ st.reconnectAttempts ≥ st.maxReconnectAttempts := not_le.mpr h
    simp [Bridge.scheduleReconnect, h2]

/-- Witness for C4 at a concrete state: at 2 of 5 attempts, a reconnect is
scheduled after the doubled delay, the counter stays within the ceiling; at
the ceiling nothing is scheduled. -/
theorem C4_reconnect_backoff_bounded_witness :
    (Bridge.scheduleReconnect ⟨.disconnected, 2, 5, false⟩).2 =
      some (Bridge.reconnectDelay 2) ∧
    (Bridge.scheduleReconnect ⟨.disconnected, 2, 5, false⟩).1.reconnectAttempts ≤ 5 ∧
    Bridge.scheduleReconnect ⟨.disconnected, 5, 5, false⟩ =
      (⟨.disconnected, 5, 5, false⟩, none) ∧
    Bridge.reconnectDelay 3 ≤ 30000 :=
  ⟨(C4_reconnect_backoff_bounded.2.2.2.2 ⟨.disconnected, 2, 5, false⟩ (by decide)).1,
   C4_reconnect_backoff_bounded.2.2.1 ⟨.disconnected, 2, 5, false⟩ (by decide),
   C4_reconnect_backoff_bounded.2.2.2.1 ⟨.disconnected, 5, 5, false⟩ (by decide),
   C4_reconnect_backoff_bounded.2.1 3⟩

/-- Claim C7 counterexample: when the backend is killed by a signal the exit
handler receives a `null` code, falls through both branches, and writes no log
line — refuting, at that concrete input, the claim that a non-zero-or-signal
exit is logged while the supervisor keeps running. -/
theorem C7_signal_exit_unlogged :
    ¬ ((Wrapper.onBackendExit none).1 = Wrapper.SupervisorAction.keepRunning ∧
       (Wrapper.onBackendExit none).2 = true) := by
  decide

/-- Claim C7 (amended): a clean backend exit (code 0) makes the supervisor
log and terminate its own process instead of retrying; a non-zero exit code is
logged and the supervisor keeps running; a signal exit (`null` code) also
keeps the supervisor running but writes no log line. -/
theorem C7_clean_exit_terminates :
    Wrapper.onBackendExit (some 0) = (.exitSelf, true) ∧
    (∀ c : Int, c ≠ 0 → Wrapper.onBackendExit (some c) = (.keepRunning, true)) ∧
    Wrapper.onBackendExit none = (.keepRunning, false) := by
  refine ⟨rfl, ?_, rfl⟩
  intro c hc
  simp [Wrapper.onBackendExit, hc]

/-- Witness for C7 (amended) at the concrete exit code 1. -/
theorem C7_clean_exit_terminates_witness :
    Wrapper.onBackendExit (some 1) = (.keepRunning, true) :=
  C7_clean_exit_terminates.2.1 1 (by decide)

/-- Claim C8: a clean close of the active transport never schedules a
reconnect: the clean-close branch of the `onclose` handler only moves the
state to `disconnected` (attempt counter and timer untouched), so if no timer
was pending none is afterwards; and `disconnect()` itself clears any pending
reconnect timer and ends disconnected, as does the clean close it provokes. -/
theorem C8_clean_close_never_reconnects :
    ∀ st : Bridge.BridgeState,
      Bridge.onClose st true =
        { st with connectionState := .disconnected } ∧
      (st.timerPending = false →
        (Bridge.onClose st true).connectionState = .disconnected ∧
        (Bridge.onClose st true).timerPending = false) ∧
      ((Bridge.disconnect st).connectionState = .disconnected ∧
       (Bridge.disconnect st).timerPending = false) ∧
      ((Bridge.onClose (Bridge.disconnect st) true).connectionState =
          .disconnected ∧
       (Bridge.onClose (Bridge.disconnect st) true).timerPending = false) := by
  intro st
  refine ⟨rfl, ?_, ⟨rfl, rfl⟩, ⟨rfl, rfl⟩⟩
  intro h
  exact ⟨rfl, h⟩

/-- Witness for C8 at a concrete connected state with no pending timer. -/
theorem C8_clean_close_never_reconnects_witness :
    (Bridge.onClose ⟨.connected, 0, 5, false⟩ true).connectionState =
      Bridge.ConnState.disconnected ∧
    (Bridge.onClose ⟨.connected, 0, 5, false⟩ true).timerPending = false :=
  (C8_clean_close_never_reconnects ⟨.connected, 0, 5, false⟩).2.1 rfl

/-- Claim C9: a query whose method names no registered handler is answered
with a single structured failure response (`success = false` with an error
message) in an `mcp-response` envelope carrying the query's id, and the
bridge state — hence the connection — is left unchanged. -/
theorem C9_unknown_method_structured_failure :
    ∀ (queries : Bridge.QueryTable) (st : Bridge.BridgeState)
      (msg : Bridge.InMsg),
      msg.type = "mcp-query" →
      queries.lookup msg.data.method = none →
      Bridge.handleMessage queries st msg =
        (st, [⟨"mcp-response", msg.id,
          some ⟨false, none,
            some ("No handler found for query: " ++ msg.data.method)⟩⟩]) := by
  intro queries st msg htype hlookup
  simp [Bridge.handleMessage, Bridge.handleMCPQuery, htype, hlookup]

/-- Witness for C9: an unknown method on an empty handler table yields the
structured failure correlated to the query's id, with the state untouched. -/
theorem C9_unknown_method_structured_failure_witness :
    Bridge.handleMessage [] ⟨.connected, 0, 5, false⟩
      ⟨"mcp-query", some "q17", ⟨"foundry-mcp-bridge.noSuchTool", none⟩⟩ =
      (⟨.connected, 0, 5, false⟩,
       [⟨"mcp-response", some "q17",
         some ⟨false, none,
           some ("No handler found for query: "
             ++ "foundry-mcp-bridge.noSuchTool")⟩⟩]) :=
  C9_unknown_method_structured_failure []
    ⟨.connected, 0, 5, false⟩
    ⟨"mcp-query", some "q17", ⟨"foundry-mcp-bridge.noSuchTool", none⟩⟩ rfl rfl

/-- Claim C5, failing input: the status poll's step estimate for a running
job is computed from `Math.random()` (an acknowledged placeholder), so two
consecutive polls of the same running job can report a strictly decreasing
step count — here step 5 of 8 and then step 1 of 8 — contradicting the
spec's monotone-progress invariant. -/
theorem C5_polled_progress_not_monotone :
    Comfy.getJobStatusWithProgress "j1" (.ok [])
        (.ok ⟨[⟨"j1", some 8⟩], []⟩) 4 =
      ⟨.running, some 5, some 8, some 54⟩ ∧
    Comfy.getJobStatusWithProgress "j1" (.ok [])
        (.ok ⟨[⟨"j1", some 8⟩], []⟩) 0 =
      ⟨.running, some 1, some 8, some 126⟩ ∧
    (1 : Nat) < 5 := by
  refine ⟨rfl, rfl, by norm_num⟩

/-- Claim C10: the status poll is total — it always reports one of the four
statuses — and it reports `failed` both when a transport error occurs on the
history or queue request and when the id appears in neither the history nor
the running queue nor the pending queue, so an unreachable external service is
indistinguishable from a genuinely failed job at this interface. -/
theorem C10_status_poll_total_failed :
    (∀ (id : String) (histKeys : Except Unit (List String))
      (queue : Except Unit Comfy.QueueData) (rand : Nat),
      Comfy.getJobStatus id histKeys queue rand = .queued ∨
      Comfy.getJobStatus id histKeys queue rand = .running ∨
      Comfy.getJobStatus id histKeys queue rand = .complete ∨
      Comfy.getJobStatus id histKeys queue rand = .failed) ∧
    (∀ (id : String) (queue : Except Unit Comfy.QueueData) (rand : Nat),
      Comfy.getJobStatus id (.error ()) queue rand = .failed) ∧
    (∀ (id : String) (rand : Nat),
      Comfy.getJobStatus id (.ok []) (.error ()) rand = .failed) ∧
    (∀ (id : String) (qd : Comfy.QueueData) (rand : Nat),
      qd.queueRunning.find? (fun it => it.promptId == id) = none →
      qd.queuePending.any (fun it => it.promptId == id) = false →
      Comfy.getJobStatus id (.ok []) (.ok qd) rand = .failed) := by
  refine ⟨?_, ?_, ?_, ?_⟩
  · intro id histKeys queue rand
    cases h : Comfy.getJobStatus id histKeys queue rand with
    | queued => exact Or.inl rfl
    | running => exact Or.inr (Or.inl rfl)
    | complete => exact Or.inr (Or.inr (Or.inl rfl))
    | failed => exact Or.inr (Or.inr (Or.inr rfl))
  · intro id queue rand; rfl
  · intro id rand; rfl
  · intro id qd rand h1 h2
    simp [Comfy.getJobStatus, Comfy.getJobStatusWithProgress, h1, h2]

/-- Witness for C10: a transport error on the poll and a job found nowhere
both report `failed` at concrete inputs. -/
theorem C10_status_poll_total_failed_witness :
    Comfy.getJobStatus "p1" (.error ()) (.ok ⟨[], []⟩) 0 =
      Comfy.PollStatus.failed ∧
    Comfy.getJobStatus "p1" (.ok []) (.ok ⟨[], []⟩) 0 =
      Comfy.PollStatus.failed :=
  ⟨C10_status_poll_total_failed.2.1 "p1" (.ok ⟨[], []⟩) 0,
   C10_status_poll_total_failed.2.2.2 "p1" ⟨[], []⟩ 0 rfl rfl⟩

/-- Claim C6 (settled against the spec model of the missing orchestrator
cancel handler): cancelling a `complete` job returns a structured error and
leaves the job unchanged; cancelling a `queued` job moves it to `cancelled`
in one transition — it is never observed `generating` — and the local
cancelled marking is the same whether or not the external interrupt call
succeeds. -/
theorem C6_cancel_transitions :
    (∀ (j : Orchestrator.Job) (now : Nat) (b : Bool),
      j.status = .complete →
      Orchestrator.cancelJob j now b =
        { ok := false, error := some "Job is not cancellable", job := j }) ∧
    (∀ (j : Orchestrator.Job) (now : Nat) (b : Bool),
      j.status = .queued →
      Orchestrator.cancelJob j now b =
        { ok := true, error := none,
          job := { j with status := .cancelled, completedAt := some now } } ∧
      (Orchestrator.cancelJob j now b).job.status ≠ .generating) ∧
    (∀ (j : Orchestrator.Job) (now : Nat) (b b' : Bool),
      Orchestrator.cancelJob j now b = Orchestrator.cancelJob j now b') := by
  refine ⟨?_, ?_, ?_⟩
  · intro j now b h
    simp [Orchestrator.cancelJob, h]
  · intro j now b h
    constructor
    · simp [Orchestrator.cancelJob, h]
    · simp [Orchestrator.cancelJob, h]
  · intro j now b b'
    cases hj : j.status <;> simp [Orchestrator.cancelJob, hj]

/-- Witness for C6 at concrete jobs: a complete job is rejected unchanged, a
queued job becomes cancelled in one step, and the result is identical for a
failing and a succeeding external interrupt. -/
theorem C6_cancel_transitions_witness :
    Orchestrator.cancelJob ⟨"job2", .complete, some 5, 100⟩ 9 true =
      { ok := false, error := some "Job is not cancellable",
        job := ⟨"job2", .complete, some 5, 100⟩ } ∧
    Orchestrator.cancelJob ⟨"job1", .queued, none, 0⟩ 9 false =
      { ok := true, error := none, job := ⟨"job1", .cancelled, some 9, 0⟩ } ∧
    Orchestrator.cancelJob ⟨"job1", .queued, none, 0⟩ 9 false =
      Orchestrator.cancelJob ⟨"job1", .queued, none, 0⟩ 9 true :=
  ⟨C6_cancel_transitions.1 ⟨"job2", .complete, some 5, 100⟩ 9 true rfl,
   (C6_cancel_transitions.2.1 ⟨"job1", .queued, none, 0⟩ 9 false rfl).1,
   C6_cancel_transitions.2.2 ⟨"job1", .queued, none, 0⟩ 9 false true⟩

end FoundryMCP
